import Mathlib

/-!
Verification of the permit-fastapi-example todo API (src/main.py).

The embedding models the task store as a `List Task`, Python list indexing
(including negative indices and `IndexError`) explicitly over `Int`, the
route handlers `get_tasks`, `get_task`, `create_task`, `update_task`,
`delete_task` as pure functions from the request data and the current store
to a result, the new store, and the list of checks sent to the external
policy oracle (modelled as a boolean function on checks).
-/

namespace PermitTodo

/-- JSON scalar values, enough for a serialized task record. -/
inductive Jval where
  | jnull
  | jbool (b : Bool)
  | jstr (s : String)
deriving DecidableEq, Repr

/-- The pydantic `Task` model of src/main.py lines 21-24:
`title: str`, `checked: Union[bool, None] = False`, `owner: Union[str, None] = None`.
Equality between tasks is pydantic structural equality (all fields). -/
structure Task where
  title : String
  checked : Option Bool
  owner : Option String
deriving DecidableEq, Repr

/-- The initial in-memory store of src/main.py lines 26-30. -/
def initialTasks : List Task :=
  [⟨"Task 1", some false, some "admin@permit-todo.app"⟩,
   ⟨"Task 2", some true, some "user@permit-todo.app"⟩,
   ⟨"Task 3", some false, some "admin@permit-todo.app"⟩]

/-- Python `s.strip(c)`: remove leading and trailing occurrences of `c`. -/
def pyStrip (c : Char) (s : String) : String :=
  String.mk (((s.data.dropWhile (fun x => x = c)).reverse.dropWhile (fun x => x = c)).reverse)

/-- Python `s.split(c)` on the character list: splitting on a one-character
separator, keeping empty segments, `[[]]` on the empty string. -/
def splitChar (c : Char) : List Char → List (List Char)
  | [] => [[]]
  | x :: xs =>
    if x = c then [] :: splitChar c xs
    else
      match splitChar c xs with
      | [] => [[x]]
      | seg :: rest => (x :: seg) :: rest

/-- Python `s.split(c)` for a one-character separator. -/
def pySplit (c : Char) (s : String) : List String :=
  (splitChar c s.data).map String.mk

/-- ASCII lowercasing of one character, as Python `str.lower()` acts on the
ASCII method names used here. -/
def asciiLowerChar (c : Char) : Char :=
  if 'A' ≤ c ∧ c ≤ 'Z' then Char.ofNat (c.toNat + 32) else c

/-- Python `s.lower()` (ASCII range, which covers every HTTP method name). -/
def pyLower (s : String) : String :=
  String.mk (s.data.map asciiLowerChar)

/-- Python list index resolution for a list of length `n` and an `int` index
`i`: `0 <= i < n` resolves to `i`, `-n <= i < 0` resolves to `n + i`,
anything else raises `IndexError` (here: `none`). -/
def pyIdx (n : Nat) (i : Int) : Option Nat :=
  if 0 ≤ i then
    (if i < (n : Int) then some i.toNat else none)
  else
    (if -(n : Int) ≤ i then some ((n : Int) + i).toNat else none)

/-- Python `l[i]` on a task list. -/
def pyGet (l : List Task) (i : Int) : Option Task :=
  (pyIdx l.length i).bind (fun k => l[k]?)

/-- Python `l.remove(a)`: remove the first element structurally equal to `a`
(no-op here when absent; the handlers only call it on a member). -/
def removeFirst (a : Task) : List Task → List Task
  | [] => []
  | x :: xs => if x = a then xs else x :: removeFirst a xs

/-- `task.dict()` as serialized to JSON: all three fields, absent options as null.
This is also FastAPI's default response serialization of a `Task` model. -/
def taskDict (t : Task) : List (String × Jval) :=
  [("title", Jval.jstr t.title),
   ("checked", (match t.checked with | some b => Jval.jbool b | none => Jval.jnull)),
   ("owner", (match t.owner with | some s => Jval.jstr s | none => Jval.jnull))]

/-- A check request sent to the external policy oracle:
`permit.check(user, method, {"type": resource_name, "attributes": resource})`. -/
structure Check where
  user : String
  action : String
  rtype : String
  attributes : List (String × Jval)
deriving DecidableEq, Repr

/-- `request.url.path.strip('/').split('/')[0]` of src/main.py line 36. -/
def resourceName (path : String) : String :=
  ((pySplit '/' (pyStrip '/' path)).headD "")

/-- The check built by `authorize` (src/main.py lines 35-44): subject is the raw
bearer credential, action is the lowercased method, resource type comes from
the path, attributes are the request JSON for post/put and the `body` argument
otherwise. -/
def mkCheck (method path token : String) (jsonBody body : List (String × Jval)) : Check :=
  let m := pyLower method
  { user := token
    action := m
    rtype := resourceName path
    attributes := if m = "post" ∨ m = "put" then jsonBody else body }

/-- Errors a handler can surface: 403 from `authorize`, 404 from the explicit
check in `update_task`, and an unhandled Python `IndexError` (HTTP 500). -/
inductive HErr where
  | forbidden
  | notFound
  | indexError
deriving DecidableEq, Repr

/-- Outcome of one mutating-request handler: the response (task or error), the
store after the request, and the checks sent to the oracle during it. -/
structure HResult where
  res : Except HErr Task
  store : List Task
  calls : List Check
deriving Repr

/-- `GET /tasks` (src/main.py lines 49-51). -/
def getTasks (store : List Task) : List Task := store

/-- `GET /tasks/{task_id}` (src/main.py lines 53-55): `return tasks[task_id - 1]`,
with no bounds check of its own. -/
def getTask (store : List Task) (id : Int) : Except HErr Task :=
  match pyGet store (id - 1) with
  | some t => Except.ok t
  | none => Except.error HErr.indexError

/-- `POST /tasks` (src/main.py lines 57-61) together with its `authorize`
dependency: the oracle is consulted on the raw request JSON first; on denial
nothing runs, otherwise the handler sets `task.owner` from the bearer
credential and appends. -/
def createTask (oracle : Check → Bool) (token path : String)
    (rawBody : List (String × Jval)) (task : Task) (store : List Task) : HResult :=
  let c := mkCheck "POST" path token rawBody []
  if oracle c then
    let t := { task with owner := some token }
    { res := Except.ok t, store := store ++ [t], calls := [c] }
  else
    { res := Except.error HErr.forbidden, store := store, calls := [c] }

/-- `PUT /tasks/{task_id}` (src/main.py lines 63-69): authentication only, no
`authorize` dependency; 404 when `task_id > len(tasks)`, otherwise copies the
stored owner onto the incoming task and writes it back at the same position. -/
def updateTask (task : Task) (id : Int) (store : List Task) : HResult :=
  if id > (store.length : Int) then
    { res := Except.error HErr.notFound, store := store, calls := [] }
  else
    match (pyIdx store.length (id - 1)).bind (fun k => (store[k]?).map (fun old => (k, old))) with
    | none => { res := Except.error HErr.indexError, store := store, calls := [] }
    | some (k, old) =>
      let t := { task with owner := old.owner }
      { res := Except.ok t, store := store.set k t, calls := [] }

/-- `DELETE /tasks/{task_id}` (src/main.py lines 71-76): fetch
`tasks[task_id - 1]` (possible `IndexError`, before any check), then call
`authorize` manually with the fetched task's dict as the resource body, then
`tasks.remove(task)` — removal by value. -/
def deleteTask (oracle : Check → Bool) (token path : String) (id : Int)
    (store : List Task) : HResult :=
  match pyGet store (id - 1) with
  | none => { res := Except.error HErr.indexError, store := store, calls := [] }
  | some task =>
    let c := mkCheck "DELETE" path token [] (taskDict task)
    if oracle c then
      { res := Except.ok task, store := removeFirst task store, calls := [c] }
    else
      { res := Except.error HErr.forbidden, store := store, calls := [c] }

/-- One client operation against the API, for whole-run invariants. -/
inductive Op where
  | create (token : String) (rawBody : List (String × Jval)) (task : Task)
  | update (id : Int) (task : Task)
  | delete (token : String) (id : Int)

/-- The store after one operation (errors leave the store as the handler left it). -/
def stepOp (oracle : Check → Bool) (s : List Task) : Op → List Task
  | Op.create token rawBody task => (createTask oracle token "/tasks" rawBody task s).store
  | Op.update id task => (updateTask task id s).store
  | Op.delete token id => (deleteTask oracle token ("/tasks/" ++ toString id) id s).store

/-- The store after a sequence of operations. -/
def runOps (oracle : Check → Bool) (ops : List Op) (s : List Task) : List Task :=
  ops.foldl (stepOp oracle) s

/-- Every stored task has a present (non-null) owner field. -/
def ownersSet (s : List Task) : Bool :=
  s.all (fun t => t.owner.isSome)

/-- Modelled from the spec: the claimed resource-type derivation, "the last
non-empty path segment of the request URL" — stated for comparison with
`resourceName`, which the source actually computes. -/
def lastNonemptySegment (path : String) : String :=
  (((pySplit '/' path).filter (fun s => s ≠ "")).getLastD "")

/-! ## Helper lemmas -/

lemma pyIdx_nonneg (n : Nat) (i : Int) (h1 : 0 ≤ i) (h2 : i < (n : Int)) :
    pyIdx n i = some i.toNat := by
  unfold pyIdx; rw [if_pos h1, if_pos h2]

lemma pyIdx_neg (n : Nat) (i : Int) (h1 : -(n : Int) ≤ i) (h2 : i < 0) :
    pyIdx n i = some ((n : Int) + i).toNat := by
  unfold pyIdx; rw [if_neg (by omega), if_pos h1]

lemma mem_of_idx {l : List Task} {n : Nat} {a : Task} (h : l[n]? = some a) : a ∈ l := by
  obtain ⟨hn, rfl⟩ := List.getElem?_eq_some.mp h
  exact List.getElem_mem hn

lemma removeFirst_subset {a x : Task} {l : List Task} (h : x ∈ removeFirst a l) : x ∈ l := by
  induction l with
  | nil => simp [removeFirst] at h
  | cons y ys ih =>
    by_cases hy : y = a
    · simp only [removeFirst, if_pos hy] at h
      exact List.mem_cons_of_mem _ h
    · simp only [removeFirst, if_neg hy, List.mem_cons] at h
      rcases h with h | h
      · exact h ▸ List.mem_cons_self _ _
      · exact List.mem_cons_of_mem _ (ih h)

lemma removeFirst_eq_eraseIdx :
    ∀ (l : List Task) (j : Nat) (t : Task), l[j]? = some t →
      (∀ m, m < j → l[m]? ≠ some t) → removeFirst t l = l.eraseIdx j
  | [], j, t, h, _ => by simp at h
  | x :: xs, 0, t, h, _ => by
    simp only [List.getElem?_cons_zero, Option.some.injEq] at h
    simp [removeFirst, h]
  | x :: xs, j + 1, t, h, hfirst => by
    have hx : x ≠ t := by
      intro he
      exact hfirst 0 (Nat.succ_pos j) (by simp [he])
    simp only [List.getElem?_cons_succ] at h
    have ih := removeFirst_eq_eraseIdx xs j t h (fun m hm hme => by
      exact hfirst (m + 1) (Nat.succ_lt_succ hm) (by simpa using hme))
    simp [removeFirst, hx, ih]

lemma ownersSet_mem {s : List Task} (h : ownersSet s = true) {t : Task} (ht : t ∈ s) :
    t.owner.isSome = true := by
  rw [ownersSet, List.all_eq_true] at h
  exact h t ht

lemma ownersSet_append_one {s : List Task} {t : Task} (h : ownersSet s = true)
    (ht : t.owner.isSome = true) : ownersSet (s ++ [t]) = true := by
  rw [ownersSet, List.all_eq_true] at h
  rw [ownersSet, List.all_eq_true]
  intro u hu
  rcases List.mem_append.mp hu with hu | hu
  · exact h u hu
  · rw [List.mem_singleton.mp hu]
    exact ht

lemma ownersSet_set {s : List Task} {t : Task} {k : Nat} (h : ownersSet s = true)
    (ht : t.owner.isSome = true) : ownersSet (s.set k t) = true := by
  rw [ownersSet, List.all_eq_true] at h
  rw [ownersSet, List.all_eq_true]
  intro u hu
  rcases List.mem_or_eq_of_mem_set hu with hu | rfl
  · exact h u hu
  · exact ht

lemma ownersSet_removeFirst {s : List Task} {a : Task} (h : ownersSet s = true) :
    ownersSet (removeFirst a s) = true := by
  rw [ownersSet, List.all_eq_true] at h
  rw [ownersSet, List.all_eq_true]
  intro u hu
  exact h u (removeFirst_subset hu)

lemma ownersSet_step (oracle : Check → Bool) (s : List Task) (op : Op)
    (h : ownersSet s = true) : ownersSet (stepOp oracle s op) = true := by
  cases op with
  | create token rawBody task =>
    show ownersSet (createTask oracle token "/tasks" rawBody task s).store = true
    cases ho : oracle (mkCheck "POST" "/tasks" token rawBody []) with
    | false =>
      simp only [createTask, ho, Bool.false_eq_true, if_false]
      exact h
    | true =>
      simp only [createTask, ho, if_true]
      exact ownersSet_append_one h rfl
  | update id task =>
    show ownersSet (updateTask task id s).store = true
    unfold updateTask
    split
    · exact h
    · rcases hb : (pyIdx s.length (id - 1)).bind
        (fun k => (s[k]?).map (fun old => (k, old))) with _ | ⟨k, old⟩
      · exact h
      · obtain ⟨k', hk', hmap⟩ := Option.bind_eq_some.mp hb
        obtain ⟨old', hold', heq⟩ := Option.map_eq_some'.mp hmap
        injection heq with h1 h2
        subst h1
        subst h2
        have hmem : old' ∈ s := mem_of_idx hold'
        have hos : old'.owner.isSome = true := ownersSet_mem h hmem
        have hos2 : ({ task with owner := old'.owner } : Task).owner.isSome = true := hos
        show ownersSet (s.set k' { task with owner := old'.owner }) = true
        exact ownersSet_set h hos2
  | delete token id =>
    show ownersSet (deleteTask oracle token ("/tasks/" ++ toString id) id s).store = true
    rcases hg : pyGet s (id - 1) with _ | t
    · simp only [deleteTask, hg]
      exact h
    · cases ho : oracle (mkCheck "DELETE" ("/tasks/" ++ toString id) token []
        (taskDict t)) with
      | false =>
        simp only [deleteTask, hg, ho, Bool.false_eq_true, if_false]
        exact h
      | true =>
        simp only [deleteTask, hg, ho, if_true]
        exact ownersSet_removeFirst h

lemma ownersSet_runOps (oracle : Check → Bool) (ops : List Op) (s : List Task)
    (h : ownersSet s = true) : ownersSet (runOps oracle ops s) = true := by
  induction ops generalizing s with
  | nil => exact h
  | cons op rest ih => exact ih _ (ownersSet_step oracle s op h)

/-! ## Claim theorems -/

/-- Claim C1: when the oracle check performed for a POST /tasks or a
DELETE /tasks/{id} request returns false, the handler answers with the
Forbidden (403) error and the task store is exactly what it was before:
nothing appended, nothing removed, no owner changed. (For DELETE the check
is performed exactly when the id resolves to a stored task `t`, hypothesis
`ht`.) -/
theorem forbidden_means_no_mutation (oracle : Check → Bool) (token cpath dpath : String)
    (rawBody : List (String × Jval)) (task : Task) (store : List Task) (id : Int) (t : Task)
    (hpost : oracle (mkCheck "POST" cpath token rawBody []) = false)
    (ht : pyGet store (id - 1) = some t)
    (hdel : oracle (mkCheck "DELETE" dpath token [] (taskDict t)) = false) :
    (createTask oracle token cpath rawBody task store).res = Except.error HErr.forbidden ∧
    (createTask oracle token cpath rawBody task store).store = store ∧
    (deleteTask oracle token dpath id store).res = Except.error HErr.forbidden ∧
    (deleteTask oracle token dpath id store).store = store := by
  refine ⟨?_, ?_, ?_, ?_⟩ <;> simp [createTask, deleteTask, hpost, ht, hdel]

/-- Witness for C1: a denying oracle on the initial store. -/
theorem forbidden_means_no_mutation_witness :
    (createTask (fun _ => false) "user@x" "/tasks" [] ⟨"T", some false, none⟩ initialTasks).res
      = Except.error HErr.forbidden ∧
    (createTask (fun _ => false) "user@x" "/tasks" [] ⟨"T", some false, none⟩ initialTasks).store
      = initialTasks ∧
    (deleteTask (fun _ => false) "user@x" "/tasks/1" 1 initialTasks).res
      = Except.error HErr.forbidden ∧
    (deleteTask (fun _ => false) "user@x" "/tasks/1" 1 initialTasks).store = initialTasks :=
  forbidden_means_no_mutation (fun _ => false) "user@x" "/tasks" "/tasks/1" []
    ⟨"T", some false, none⟩ initialTasks 1
    ⟨"Task 1", some false, some "admin@permit-todo.app"⟩ rfl rfl rfl

/-- Claim C2 (divergence): with an id one past the store length, the claim
says GET/PUT/DELETE all answer NotFound; in the code only PUT does, while
GET and DELETE hit an unhandled IndexError from `tasks[task_id - 1]`. -/
theorem out_of_range_divergence :
    getTask initialTasks 4 = Except.error HErr.indexError ∧
    (deleteTask (fun _ => true) "admin@permit-todo.app" "/tasks/4" 4 initialTasks).res
      = Except.error HErr.indexError ∧
    (deleteTask (fun _ => true) "admin@permit-todo.app" "/tasks/4" 4 initialTasks).store
      = initialTasks ∧
    (updateTask ⟨"Task 4", some false, none⟩ 4 initialTasks).res
      = Except.error HErr.notFound :=
  ⟨rfl, rfl, rfl, rfl⟩

/-- Claim C3: a successful PUT on an existing id stores and returns the
incoming task with its owner replaced by the stored task's owner, whatever
owner the request body carried. -/
theorem update_preserves_owner (body old : Task) (o : Option String) (id : Int)
    (store : List Task) (h1 : 1 ≤ id) (h2 : id ≤ (store.length : Int))
    (hold : store[(id - 1).toNat]? = some old) :
    (updateTask body id store).res = Except.ok { body with owner := old.owner } ∧
    (updateTask body id store).store
      = store.set (id - 1).toNat { body with owner := old.owner } ∧
    updateTask { body with owner := o } id store = updateTask body id store := by
  have hn : ¬ id > (store.length : Int) := by omega
  have hidx : pyIdx store.length (id - 1) = some (id - 1).toNat :=
    pyIdx_nonneg _ _ (by omega) (by omega)
  have hkey : (id - 1).toNat = id.toNat - 1 := by omega
  rw [hkey] at hold
  refine ⟨?_, ?_, ?_⟩ <;> simp [updateTask, hn, hidx, hold, hkey]

/-- Witness for C3: updating task 2 with a client-supplied owner keeps the
stored owner. -/
theorem update_preserves_owner_witness :
    (updateTask ⟨"X", some true, none⟩ 2 initialTasks).res
      = Except.ok ⟨"X", some true, some "user@permit-todo.app"⟩ ∧
    (updateTask ⟨"X", some true, none⟩ 2 initialTasks).store
      = initialTasks.set 1 ⟨"X", some true, some "user@permit-todo.app"⟩ ∧
    updateTask ⟨"X", some true, some "evil@x"⟩ 2 initialTasks
      = updateTask ⟨"X", some true, none⟩ 2 initialTasks :=
  update_preserves_owner ⟨"X", some true, none⟩
    ⟨"Task 2", some true, some "user@permit-todo.app"⟩ (some "evil@x") 2 initialTasks
    (by decide) (by decide) rfl

/-- Claim C4: an allowed POST appends exactly one task, carrying the caller
identity as owner, at the end of the store; the length grows by one and the
earlier entries keep their order and contents. -/
theorem create_appends_with_caller_owner (oracle : Check → Bool) (token path : String)
    (rawBody : List (String × Jval)) (task : Task) (store : List Task)
    (hallow : oracle (mkCheck "POST" path token rawBody []) = true) :
    (createTask oracle token path rawBody task store).res
      = Except.ok { task with owner := some token } ∧
    (createTask oracle token path rawBody task store).store
      = store ++ [{ task with owner := some token }] ∧
    (createTask oracle token path rawBody task store).store.length = store.length + 1 ∧
    (createTask oracle token path rawBody task store).store.take store.length = store := by
  refine ⟨?_, ?_, ?_, ?_⟩ <;> simp [createTask, hallow, List.take_left]

/-- Witness for C4: creating "Task 4" as "admin@x" on the initial store. -/
theorem create_appends_with_caller_owner_witness :
    (createTask (fun _ => true) "admin@x" "/tasks" [("title", Jval.jstr "Task 4")]
      ⟨"Task 4", some false, none⟩ initialTasks).res
      = Except.ok ⟨"Task 4", some false, some "admin@x"⟩ ∧
    (createTask (fun _ => true) "admin@x" "/tasks" [("title", Jval.jstr "Task 4")]
      ⟨"Task 4", some false, none⟩ initialTasks).store
      = initialTasks ++ [⟨"Task 4", some false, some "admin@x"⟩] ∧
    (createTask (fun _ => true) "admin@x" "/tasks" [("title", Jval.jstr "Task 4")]
      ⟨"Task 4", some false, none⟩ initialTasks).store.length = initialTasks.length + 1 ∧
    (createTask (fun _ => true) "admin@x" "/tasks" [("title", Jval.jstr "Task 4")]
      ⟨"Task 4", some false, none⟩ initialTasks).store.take initialTasks.length
      = initialTasks :=
  create_appends_with_caller_owner (fun _ => true) "admin@x" "/tasks"
    [("title", Jval.jstr "Task 4")] ⟨"Task 4", some false, none⟩ initialTasks rfl

/-- Claim C5 (counterexample): for DELETE /tasks/1, the check actually sent
names resource type "tasks" — the first path segment — while the last
non-empty path segment of the URL is "1", so the claim's "last non-empty
path segment" derivation is wrong on the code. -/
theorem check_type_not_last_segment :
    (deleteTask (fun _ => true) "admin@permit-todo.app" "/tasks/1" 1 initialTasks).calls.map
      Check.rtype = ["tasks"] ∧
    lastNonemptySegment "/tasks/1" = "1" ∧
    ("tasks" : String) ≠ "1" :=
  ⟨rfl, rfl, by decide⟩

/-- Claim C5 (amended): every check a POST or DELETE request sends to the
oracle is (raw bearer token, lowercased method, {type, attributes}) with the
type derived as the FIRST path segment after stripping slashes
(`resourceName`), attributes being the raw request body for create and the
affected task's dict for delete. -/
theorem check_shape (oracle : Check → Bool) (token cpath dpath : String)
    (rawBody : List (String × Jval)) (task : Task) (store : List Task) (id : Int) (t : Task)
    (ht : pyGet store (id - 1) = some t) :
    (createTask oracle token cpath rawBody task store).calls
      = [{ user := token, action := "post", rtype := resourceName cpath,
           attributes := rawBody }] ∧
    (deleteTask oracle token dpath id store).calls
      = [{ user := token, action := "delete", rtype := resourceName dpath,
           attributes := taskDict t }] := by
  constructor
  · cases h : oracle (mkCheck "POST" cpath token rawBody []) <;>
      simp [createTask, h] <;> rfl
  · cases h : oracle (mkCheck "DELETE" dpath token [] (taskDict t)) <;>
      simp [deleteTask, ht, h] <;> rfl

/-- Witness for C5 (amended): concrete checks for create and for deleting
task 2. -/
theorem check_shape_witness :
    (createTask (fun _ => true) "admin@x" "/tasks" [("title", Jval.jstr "T")]
      ⟨"T", some false, none⟩ initialTasks).calls
      = [{ user := "admin@x", action := "post", rtype := resourceName "/tasks",
           attributes := [("title", Jval.jstr "T")] }] ∧
    (deleteTask (fun _ => true) "admin@x" "/tasks/2" 2 initialTasks).calls
      = [{ user := "admin@x", action := "delete", rtype := resourceName "/tasks/2",
           attributes := taskDict ⟨"Task 2", some true, some "user@permit-todo.app"⟩ }] :=
  check_shape (fun _ => true) "admin@x" "/tasks" "/tasks/2" [("title", Jval.jstr "T")]
    ⟨"T", some false, none⟩ initialTasks 2
    ⟨"Task 2", some true, some "user@permit-todo.app"⟩ rfl

/-- Claim C6: a PUT /tasks/{id} request never sends any check to the policy
oracle — `updateTask` does not even take the oracle as an input, and its
call trace is empty on every store, id and body. -/
theorem update_sends_no_check (task : Task) (id : Int) (store : List Task) :
    (updateTask task id store).calls = [] := by
  unfold updateTask
  split
  · rfl
  · split <;> rfl

/-- Claim C7: an allowed DELETE looks the task up by position and then
removes the first structurally equal entry: the store becomes
`store.eraseIdx j` for the least index `j` holding a task equal to the one
at the resolved position `k`; when an equal entry sits at an earlier
position `m < k`, the removed index satisfies `j < k`. -/
theorem delete_removes_first_equal (oracle : Check → Bool) (token path : String)
    (id : Int) (store : List Task) (t : Task) (j k m : Nat)
    (hk : pyIdx store.length (id - 1) = some k)
    (htk : store[k]? = some t)
    (hallow : oracle (mkCheck "DELETE" path token [] (taskDict t)) = true)
    (hj : store[j]? = some t)
    (hfirst : ∀ n, n < j → store[n]? ≠ some t) :
    (deleteTask oracle token path id store).res = Except.ok t ∧
    (deleteTask oracle token path id store).store = store.eraseIdx j ∧
    (m < k → store[m]? = some t → j < k) := by
  have hget : pyGet store (id - 1) = some t := by simp [pyGet, hk, htk]
  refine ⟨?_, ?_, fun hm hmt => ?_⟩
  · simp [deleteTask, hget, hallow]
  · simp [deleteTask, hget, hallow, removeFirst_eq_eraseIdx store j t hj hfirst]
  · have hjm : j ≤ m := by
      by_contra hlt
      exact hfirst m (by omega) hmt
    omega

/-- Witness for C7: deleting id 3 from [A, B, A] removes the A at position 1,
not the one at position 3. -/
theorem delete_removes_first_equal_witness :
    (deleteTask (fun _ => true) "admin@x" "/tasks/3" 3
      [⟨"A", some false, some "a@x"⟩, ⟨"B", some true, some "b@x"⟩,
       ⟨"A", some false, some "a@x"⟩]).res = Except.ok ⟨"A", some false, some "a@x"⟩ ∧
    (deleteTask (fun _ => true) "admin@x" "/tasks/3" 3
      [⟨"A", some false, some "a@x"⟩, ⟨"B", some true, some "b@x"⟩,
       ⟨"A", some false, some "a@x"⟩]).store
      = [⟨"A", some false, some "a@x"⟩, ⟨"B", some true, some "b@x"⟩,
         ⟨"A", some false, some "a@x"⟩].eraseIdx 0 ∧
    (0 < 2 →
      ([⟨"A", some false, some "a@x"⟩, ⟨"B", some true, some "b@x"⟩,
        ⟨"A", some false, some "a@x"⟩] : List Task)[0]?
        = some ⟨"A", some false, some "a@x"⟩ → 0 < 2) :=
  delete_removes_first_equal (fun _ => true) "admin@x" "/tasks/3" 3
    [⟨"A", some false, some "a@x"⟩, ⟨"B", some true, some "b@x"⟩,
     ⟨"A", some false, some "a@x"⟩] ⟨"A", some false, some "a@x"⟩ 0 2 0
    rfl rfl rfl rfl (by omega)

/-- Claim C8: on a non-empty store of length n and an id with
1 - n ≤ id ≤ 0, GET succeeds with the element at 1-based position n + id
(id 0 is the last element), DELETE (when allowed) deletes it, and PUT with
id 0 replaces the last element — the only bound ever checked is id > n. -/
theorem negative_ids_index_from_end (oracle : Check → Bool) (token path : String)
    (body t : Task) (store : List Task) (id : Int)
    (hlo : 1 - (store.length : Int) ≤ id) (hhi : id ≤ 0)
    (ht : store[((store.length : Int) + id - 1).toNat]? = some t) :
    getTask store id = Except.ok t ∧
    (oracle (mkCheck "DELETE" path token [] (taskDict t)) = true →
      (deleteTask oracle token path id store).res = Except.ok t ∧
      (deleteTask oracle token path id store).store = removeFirst t store) ∧
    (id = 0 →
      (updateTask body id store).res = Except.ok { body with owner := t.owner } ∧
      (updateTask body id store).store
        = store.set (store.length - 1) { body with owner := t.owner }) := by
  have hn1 : 1 ≤ store.length := by omega
  have hidx : pyIdx store.length (id - 1)
      = some ((store.length : Int) + id - 1).toNat := by
    rw [pyIdx_neg _ _ (by omega) (by omega)]
    congr 1
    omega
  have hget : pyGet store (id - 1) = some t := by
    unfold pyGet
    rw [hidx, Option.some_bind]
    exact ht
  refine ⟨?_, fun hallow => ⟨?_, ?_⟩, fun hid => ?_⟩
  · simp [getTask, hget]
  · simp [deleteTask, hget, hallow]
  · simp [deleteTask, hget, hallow]
  · subst hid
    have hgt : ¬ (0 : Int) > (store.length : Int) := by omega
    have hkey : ((store.length : Int) + 0 - 1).toNat = store.length - 1 := by omega
    rw [hkey] at ht
    have hidx0 : pyIdx store.length (-1) = some (store.length - 1) := by
      have hkey1 : ((store.length : Int) + -1).toNat = store.length - 1 := by omega
      rw [pyIdx_neg _ _ (by omega) (by omega), hkey1]
    refine ⟨?_, ?_⟩ <;> simp [updateTask, hgt, hidx0, ht]

/-- Witness for C8: id 0 on the initial store reads Task 3, deletes Task 3,
and PUT at id 0 replaces it. -/
theorem negative_ids_index_from_end_witness :
    getTask initialTasks 0 = Except.ok ⟨"Task 3", some false, some "admin@permit-todo.app"⟩ ∧
    ((fun _ => true : Check → Bool)
        (mkCheck "DELETE" "/tasks/0" "admin@x" []
          (taskDict ⟨"Task 3", some false, some "admin@permit-todo.app"⟩)) = true →
      (deleteTask (fun _ => true) "admin@x" "/tasks/0" 0 initialTasks).res
        = Except.ok ⟨"Task 3", some false, some "admin@permit-todo.app"⟩ ∧
      (deleteTask (fun _ => true) "admin@x" "/tasks/0" 0 initialTasks).store
        = removeFirst ⟨"Task 3", some false, some "admin@permit-todo.app"⟩ initialTasks) ∧
    ((0 : Int) = 0 →
      (updateTask ⟨"X", some true, none⟩ 0 initialTasks).res
        = Except.ok ⟨"X", some true, some "admin@permit-todo.app"⟩ ∧
      (updateTask ⟨"X", some true, none⟩ 0 initialTasks).store
        = initialTasks.set (initialTasks.length - 1)
            ⟨"X", some true, some "admin@permit-todo.app"⟩) :=
  negative_ids_index_from_end (fun _ => true) "admin@x" "/tasks/0" ⟨"X", some true, none⟩
    ⟨"Task 3", some false, some "admin@permit-todo.app"⟩ initialTasks 0
    (by decide) (by decide) rfl

/-- Claim C9: starting from the initial three-task store, any sequence of
create, update and delete operations leaves every stored task with a present
owner field. -/
theorem all_owners_present (oracle : Check → Bool) (ops : List Op) :
    ownersSet (runOps oracle ops initialTasks) = true :=
  ownersSet_runOps oracle ops initialTasks rfl

/-- Claim C10: GET /tasks and GET /tasks/{id} serialize every returned task
with exactly the keys title, checked and owner — owner is always present in
the JSON (as null when absent on the task). -/
theorem responses_serialize_owner (store : List Task) (id : Int) (t : Task)
    (h : getTask store id = Except.ok t) :
    (taskDict t).map Prod.fst = ["title", "checked", "owner"] ∧
    (getTasks store).map (fun u => (taskDict u).map Prod.fst)
      = List.replicate (getTasks store).length ["title", "checked", "owner"] :=
  ⟨rfl, List.map_const store ["title", "checked", "owner"]⟩

/-- Witness for C10: GET /tasks/1 on the initial store. -/
theorem responses_serialize_owner_witness :
    (taskDict ⟨"Task 1", some false, some "admin@permit-todo.app"⟩).map Prod.fst
      = ["title", "checked", "owner"] ∧
    (getTasks initialTasks).map (fun u => (taskDict u).map Prod.fst)
      = List.replicate (getTasks initialTasks).length ["title", "checked", "owner"] :=
  responses_serialize_owner initialTasks 1
    ⟨"Task 1", some false, some "admin@permit-todo.app"⟩ rfl

end PermitTodo
